import Mathlib

/-!
Verification of the credit ledger and entitlement engine of the
CircleMakerProBot repository, shallowly embedded from the Python source.

The repository carries two variants of the ledger:

* `bot.py` — the self-contained main program.  Its `credits` table rows
  (`balance`, `valid_from`, `expires_at`), `freebies` rows (`claimed`) and
  `stats` rows (`videos_made`, `voices_made`) are embedded below as
  `CreditsRow`, a `Bool`, and `Stats`.  Every database access in `bot.py`
  runs its whole read-modify-write under the single `db_lock` asyncio lock,
  so each operation is embedded as one atomic pure function on the rows of
  the one user it touches.
* `db.py` — the `DB` class variant (used by `admin_panel.py`), whose
  `wallet` rows are embedded as `Wallet` in namespace `DB`.

Timestamps are epoch seconds (`Int`); `now` is passed explicitly wherever
the source calls `time.time()`.
-/

namespace CircleMaker

/-- Row of the `credits` table of `bot.py`:
`balance INTEGER NOT NULL DEFAULT 0, valid_from INTEGER, expires_at INTEGER`. -/
structure CreditsRow where
  balance : Int
  valid_from : Option Int
  expires_at : Option Int
deriving Repr, DecidableEq

/-- Row of the `stats` table of `bot.py`. -/
structure Stats where
  videos_made : Nat
  voices_made : Nat
deriving Repr, DecidableEq

/-- `cleanup_if_expired` (bot.py): if `expires_at` is set and
`now_ts() >= exp`, reset `balance=0, valid_from=NULL, expires_at=NULL`. -/
def cleanup_if_expired (now : Int) (w : CreditsRow) : CreditsRow :=
  match w.expires_at with
  | some exp => if now ≥ exp then { balance := 0, valid_from := none, expires_at := none } else w
  | none => w

/-- `db_get_credit` (bot.py): runs the lazy-expiry cleanup, then returns
`(balance, valid_from, expires_at)`; we also return the stored row. -/
def db_get_credit (now : Int) (w : CreditsRow) :
    (Int × Option Int × Option Int) × CreditsRow :=
  let w1 := cleanup_if_expired now w
  ((w1.balance, w1.valid_from, w1.expires_at), w1)

/-- `db_add_credits` (bot.py): `UPDATE credits SET balance = balance + ?`.
No expiry check is performed here. -/
def db_add_credits (amount : Int) (w : CreditsRow) : CreditsRow :=
  { w with balance := w.balance + amount }

/-- `db_remove_credits` (bot.py): reads `bal`, stores `max(0, bal - amount)`. -/
def db_remove_credits (amount : Int) (w : CreditsRow) : CreditsRow :=
  { w with balance := max 0 (w.balance - amount) }

/-- `db_set_validity` (bot.py): `valid_from = now`, `expires_at = now + days*86400`,
unconditionally overwriting any prior window. -/
def db_set_validity (now days : Int) (w : CreditsRow) : CreditsRow :=
  { w with valid_from := some now, expires_at := some (now + days * 86400) }

/-- `db_remove_validity` (bot.py): sets both validity columns to NULL. -/
def db_remove_validity (w : CreditsRow) : CreditsRow :=
  { w with valid_from := none, expires_at := none }

/-- `db_deduct_video_credit` (bot.py): lazy-expiry cleanup, then if
`bal < cost` return `False` with no further change, else
`balance = balance - cost` and return `True`.  `cost` is the
`CREDITS_PER_VIDEO` configuration value. -/
def db_deduct_video_credit (now cost : Int) (w : CreditsRow) : Bool × CreditsRow :=
  let w1 := cleanup_if_expired now w
  if w1.balance < cost then (false, w1)
  else (true, { w1 with balance := w1.balance - cost })

/-- Row of the `wallet` table of `db.py`. -/
structure Wallet where
  credits : Int
  validity_start : Option Int
  validity_expire : Option Int
  free_claimed : Bool
  videos_made : Nat
deriving Repr, DecidableEq

namespace DB

/-- `DB.get_credit` (db.py): returns `(credits, validity_start, validity_expire)`
for the row as stored.  No expiry check of any kind is performed. -/
def get_credit (w : Wallet) : Int × Option Int × Option Int :=
  (w.credits, w.validity_start, w.validity_expire)

/-- `DB.add_credits` (db.py): `credits = credits + amount`. -/
def add_credits (amount : Int) (w : Wallet) : Wallet :=
  { w with credits := w.credits + amount }

/-- `DB.remove_credits` (db.py): reads `c`, stores `max(0, c - amount)`. -/
def remove_credits (amount : Int) (w : Wallet) : Wallet :=
  { w with credits := max 0 (w.credits - amount) }

/-- `DB.deduct_for_video` (db.py): if `c < cost` return `False` leaving the
row unchanged, else `credits = credits - cost` and return `True`. -/
def deduct_for_video (cost : Int) (w : Wallet) : Bool × Wallet :=
  if w.credits < cost then (false, w)
  else (true, { w with credits := w.credits - cost })

/-- `DB.set_validity` (db.py): `validity_start = now`,
`validity_expire = now + days*86400`, overwriting any prior window. -/
def set_validity (now days : Int) (w : Wallet) : Wallet :=
  { w with validity_start := some now, validity_expire := some (now + days * 86400) }

/-- `DB.remove_validity` (db.py): both validity columns to NULL. -/
def remove_validity (w : Wallet) : Wallet :=
  { w with validity_start := none, validity_expire := none }

end DB

/-- The three balance-mutating ledger operations of claim C1: credit
(`db_add_credits` / `DB.add_credits`), capped debit (`db_remove_credits` /
`DB.remove_credits`) and reservation debit (`db_deduct_video_credit` /
`DB.deduct_for_video`).  Each carries its amount argument; a reservation
record also carries the timestamp at which it ran (the only one of the
three that looks at the clock, through the lazy-expiry cleanup). -/
inductive LedgerMutOp where
  | credit (amount : Int)
  | debit (amount : Int)
  | reserve (now : Int) (cost : Int)
deriving Repr, DecidableEq

/-- Interpretation of one ledger mutation on a `bot.py` credits row. -/
def applyBot (op : LedgerMutOp) (w : CreditsRow) : CreditsRow :=
  match op with
  | .credit a => db_add_credits a w
  | .debit a => db_remove_credits a w
  | .reserve t c => (db_deduct_video_credit t c w).2

/-- Interpretation of one ledger mutation on a `db.py` wallet row
(the `DB` variant has no expiry check, so the timestamp is unused). -/
def applyDB (op : LedgerMutOp) (w : Wallet) : Wallet :=
  match op with
  | .credit a => DB.add_credits a w
  | .debit a => DB.remove_credits a w
  | .reserve _ c => (DB.deduct_for_video c w).2

/-- Running a sequence of ledger mutations on a `bot.py` row. -/
def runBot (ops : List LedgerMutOp) (w : CreditsRow) : CreditsRow :=
  ops.foldl (fun w op => applyBot op w) w

/-- Running a sequence of ledger mutations on a `db.py` row. -/
def runDB (ops : List LedgerMutOp) (w : Wallet) : Wallet :=
  ops.foldl (fun w op => applyDB op w) w

/-- A credit operation carries a nonnegative amount (the spec requires the
`credit` amount to be a positive integer; every call site in the source
passes a nonnegative literal or a `parse_int` result).  Debits and
reservations are unconstrained. -/
def creditNonneg : LedgerMutOp → Prop
  | .credit a => 0 ≤ a
  | .debit _ => True
  | .reserve _ _ => True

instance : DecidablePred creditNonneg := fun op => by
  cases op with
  | credit a => exact inferInstanceAs (Decidable (0 ≤ a))
  | debit a => exact inferInstanceAs (Decidable True)
  | reserve t c => exact inferInstanceAs (Decidable True)

/-- N tasks each call `db_deduct_video_credit(user)` with unit cost
(`tryReserve(u, 1)`).  In `bot.py` the whole read-modify-write of every
call holds the `db_lock` asyncio lock, so each call is atomic and any
concurrent schedule of N identical calls is some sequential composition of
N atomic calls; `run_reserves` is that composition, returning
`(successes, failures, final row)`. -/
def run_reserves (now : Int) : Nat → CreditsRow → Nat × Nat × CreditsRow
  | 0, w => (0, 0, w)
  | n + 1, w =>
      let r := db_deduct_video_credit now 1 w
      let rest := run_reserves now n r.2
      (if r.1 then rest.1 + 1 else rest.1,
       if r.1 then rest.2.1 else rest.2.1 + 1,
       rest.2.2)

/-- The first of the two database statements of one `DB.deduct_for_video`
call (db.py), split so that schedules of concurrent calls can interleave
them: db.py opens a fresh connection per call and holds no lock, so the
`SELECT credits` of one call and the `UPDATE` of another may interleave.
`dfvRead` is the SELECT: it returns the stored balance. -/
def dfvRead (bal : Int) : Int := bal

/-- The second half of a split `DB.deduct_for_video` call: the `c < cost`
check on the previously SELECTed value `c` and, on success, the relative
`UPDATE wallet SET credits = credits - cost`, which subtracts from the
balance as currently stored — possibly changed by another call since the
read.  Returns the call's result and the new stored balance. -/
def dfvFinish (cost c bal : Int) : Bool × Int :=
  if c < cost then (false, bal) else (true, bal - cost)

/-- Two concurrent `DB.deduct_for_video cost` calls under the schedule in
which both SELECTs run before either UPDATE (nothing in db.py forbids
it).  Returns both results and the final stored balance. -/
def deduct_for_video_race (cost bal : Int) : (Bool × Bool) × Int :=
  let c1 := dfvRead bal
  let c2 := dfvRead bal
  let r1 := dfvFinish cost c1 bal
  let r2 := dfvFinish cost c2 r1.2
  ((r1.1, r2.1), r2.2)

/-- Answer of the channel-membership oracle as `is_user_subscribed`
(bot.py) sees it: either `get_chat_member` returned a member with some
status string, or it raised `TelegramError`. -/
inductive OracleAnswer where
  | status (s : String)
  | error
deriving Repr, DecidableEq

/-- `is_user_subscribed` (bot.py): membership iff the returned status is
one of `creator`, `administrator`, `member`; any `TelegramError`
(unreachable oracle) yields `False` — fail closed. -/
def is_user_subscribed : OracleAnswer → Bool
  | .status s => s = "creator" || s = "administrator" || s = "member"
  | .error => false

/-- Outcome of the `/free` command. -/
inductive FreeOutcome where
  | alreadyClaimed
  | notSubscribed
  | granted
deriving Repr, DecidableEq

/-- `free_cmd` (bot.py) on the caller's rows: if the `freebies.claimed`
flag is set, reply already-claimed and stop (the oracle is not consulted);
else if `is_user_subscribed` is false, reply join-first and stop; else
`db_add_credits(uid, FREE_CREDITS)` and `freebies_mark_claimed(uid)`.
Returns the outcome, the credits row and the claimed flag. -/
def free_cmd (freeCredits : Int) (oracle : OracleAnswer) (w : CreditsRow)
    (claimed : Bool) : FreeOutcome × CreditsRow × Bool :=
  if claimed then (.alreadyClaimed, w, claimed)
  else if is_user_subscribed oracle then (.granted, db_add_credits freeCredits w, true)
  else (.notSubscribed, w, claimed)

/-- Ledger operations a media handler can perform, recorded as a trace. -/
inductive LedgerOp where
  | reserveOp (cost : Int) (ok : Bool)
  | creditOp (amount : Int)
  | incVideo
  | incVoice
deriving Repr, DecidableEq

/-- How far the video pipeline of `handle_video` (bot.py) gets after a
successful reservation with a resolvable file id.  `chatActionExn` is an
exception from `send_chat_action`, which runs before the `try` block;
`resolveExn`, `transcodeExn` and `deliverExn` are exceptions from
`get_file`/download, the ffmpeg step and `reply_video_note`, all caught by
the `except Exception` clause; `cancelled` is task cancellation
(`asyncio.CancelledError`, a `BaseException` the `except Exception` clause
does not catch). -/
inductive VideoStage where
  | chatActionExn
  | resolveExn
  | transcodeExn
  | deliverExn
  | completed
  | cancelled
deriving Repr, DecidableEq

/-- What `handle_video` sends back to the user. -/
inductive VideoReply where
  | insufficientCredit
  | askForFile
  | delivered
  | convertError
  | nothingSent
deriving Repr, DecidableEq

/-- Result of one `handle_video` request on the caller's account. -/
structure VideoResult where
  row : CreditsRow
  stats : Stats
  trace : List LedgerOp
  reply : VideoReply
deriving Repr, DecidableEq

/-- `handle_video` (bot.py): reserve via `db_deduct_video_credit`; on
failure reply credits-low.  If no video file id can be extracted from the
message, refund and ask for a file.  Otherwise run the pipeline: on any
`Exception` inside the `try` block, refund `CREDITS_PER_VIDEO` and reply
with the error; on completion increment `videos_made`; an exception before
the `try` block or a cancellation terminates the request with no refund. -/
def handle_video (now cost : Int) (hasFileId : Bool) (stage : VideoStage)
    (w : CreditsRow) (st : Stats) : VideoResult :=
  let r := db_deduct_video_credit now cost w
  if r.1 = false then
    ⟨r.2, st, [.reserveOp cost false], .insufficientCredit⟩
  else if hasFileId = false then
    ⟨db_add_credits cost r.2, st, [.reserveOp cost true, .creditOp cost], .askForFile⟩
  else
    match stage with
    | .chatActionExn =>
        ⟨r.2, st, [.reserveOp cost true], .nothingSent⟩
    | .resolveExn =>
        ⟨db_add_credits cost r.2, st, [.reserveOp cost true, .creditOp cost], .convertError⟩
    | .transcodeExn =>
        ⟨db_add_credits cost r.2, st, [.reserveOp cost true, .creditOp cost], .convertError⟩
    | .deliverExn =>
        ⟨db_add_credits cost r.2, st, [.reserveOp cost true, .creditOp cost], .convertError⟩
    | .completed =>
        ⟨r.2, { st with videos_made := st.videos_made + 1 },
         [.reserveOp cost true, .incVideo], .delivered⟩
    | .cancelled =>
        ⟨r.2, st, [.reserveOp cost true], .nothingSent⟩

/-- How far the voice pipeline of `handle_voice` (bot.py) gets once an
audio file id was extracted. -/
inductive VoiceStage where
  | completed
  | exnFail
  | cancelled
deriving Repr, DecidableEq

/-- What `handle_voice` sends back to the user. -/
inductive VoiceReply where
  | askForAudio
  | delivered
  | convertError
  | nothingSent
deriving Repr, DecidableEq

/-- Result of one `handle_voice` request on the caller's account. -/
structure VoiceResult where
  row : CreditsRow
  stats : Stats
  trace : List LedgerOp
  reply : VoiceReply
deriving Repr, DecidableEq

/-- `handle_voice` (bot.py): no reservation and no credits access at all.
If no voice/audio file id is present, ask for one; otherwise convert, and
on success (`reply_voice` delivered) increment `voices_made`; on a caught
`Exception` reply with the error; cancellation sends nothing.  The credits
row is never touched. -/
def handle_voice (hasAudio : Bool) (stage : VoiceStage) (w : CreditsRow)
    (st : Stats) : VoiceResult :=
  if hasAudio = false then ⟨w, st, [], .askForAudio⟩
  else
    match stage with
    | .completed => ⟨w, { st with voices_made := st.voices_made + 1 }, [.incVoice], .delivered⟩
    | .exnFail => ⟨w, st, [], .convertError⟩
    | .cancelled => ⟨w, st, [], .nothingSent⟩

/-- Parsed `admin:`-prefixed callback actions handled by `admin_cb`
(bot.py); the `adm:` actions of `admin_panel.py` have the same shape. -/
inductive AdminAction where
  | menu
  | users (offset : Nat)
  | userDetail (target : Nat)
  | add (target : Nat) (amount : Int)
  | rem (target : Nat) (amount : Int)
  | valid (target : Nat) (days : Int)
  | validRemove (target : Nat)
  | customCredit (target : Nat)
  | customValid (target : Nat)
  | premium
  | broadcast
  | download
deriving Repr, DecidableEq

/-- Kind of message an admin entry point sends back to its caller.
`adminOnly` is the explicit permission-error text. -/
inductive AdminReply where
  | adminOnly
  | panelShown
  | infoShown
deriving Repr, DecidableEq

/-- Pointwise update of one account in a keyed ledger. -/
def updateAt {α : Type} (l : Nat → α) (t : Nat) (f : α → α) : Nat → α :=
  fun u => if u = t then f (l u) else l u

/-- `admin_cmd` (bot.py): a non-admin gets the text `Admin only.`; an
admin gets the panel.  No ledger access either way. -/
def admin_cmd (isAdminCaller : Bool) : AdminReply :=
  if isAdminCaller then .panelShown else .adminOnly

/-- The `ADMIN PANEL` reply-menu button branch of `menu_click` (bot.py):
same behaviour as `admin_cmd`. -/
def menu_admin_panel (isAdminCaller : Bool) : AdminReply :=
  if isAdminCaller then .panelShown else .adminOnly

/-- `admin_cb` (bot.py): answers the callback query, then if the caller is
not an admin simply returns — no message is sent and nothing is mutated.
For admins, `add`/`rem`/`valid`/`valid_remove` mutate the target account
and every branch sends some message.  (The `custom_credit`, `custom_valid`
and `broadcast` branches additionally record a pending wizard step, which
does not touch the ledger.) -/
def admin_cb (now : Int) (isAdminCaller : Bool) (act : AdminAction)
    (l : Nat → CreditsRow) : (Nat → CreditsRow) × Option AdminReply :=
  if isAdminCaller = false then (l, none)
  else
    match act with
    | .menu => (l, some .panelShown)
    | .users _ => (l, some .infoShown)
    | .userDetail _ => (l, some .infoShown)
    | .add t a => (updateAt l t (db_add_credits a), some .infoShown)
    | .rem t a => (updateAt l t (db_remove_credits a), some .infoShown)
    | .valid t d => (updateAt l t (db_set_validity now d), some .infoShown)
    | .validRemove t => (updateAt l t db_remove_validity, some .infoShown)
    | .customCredit _ => (l, some .infoShown)
    | .customValid _ => (l, some .infoShown)
    | .premium => (l, some .infoShown)
    | .broadcast => (l, some .infoShown)
    | .download => (l, some .infoShown)

/-- A pending admin wizard step (the `admin_steps[uid]` dictionaries). -/
inductive AdminStep where
  | customCredit (target : Nat) (signNeg : Bool) (amount : Int)
  | customValid (target : Nat) (days : Int)
  | broadcastText
deriving Repr, DecidableEq

/-- `admin_step_handler` (bot.py): a message from a user with no pending
step is ignored; a pending step of a caller who is not an admin is dropped
silently; for admins the step runs (`+amount` adds, `-amount` does a
capped remove, days set validity). -/
def admin_step_handler (now : Int) (isAdminCaller : Bool)
    (step : Option AdminStep) (l : Nat → CreditsRow) :
    (Nat → CreditsRow) × Option AdminReply :=
  match step with
  | none => (l, none)
  | some s =>
    if isAdminCaller = false then (l, none)
    else
      match s with
      | .customCredit t sgn a =>
          (updateAt l t (if sgn then db_remove_credits a else db_add_credits a),
           some .infoShown)
      | .customValid t d => (updateAt l t (db_set_validity now d), some .infoShown)
      | .broadcastText => (l, some .infoShown)

/-- The `cb` callback handler registered in `admin_panel.py`: a non-admin
caller only gets `answer_callback_query` (no message, no mutation); admins
dispatch to the `DB` operations. -/
def admin_panel_cb (now : Int) (isAdminCaller : Bool) (act : AdminAction)
    (l : Nat → Wallet) : (Nat → Wallet) × Option AdminReply :=
  if isAdminCaller = false then (l, none)
  else
    match act with
    | .menu => (l, some .panelShown)
    | .users _ => (l, some .infoShown)
    | .userDetail _ => (l, some .infoShown)
    | .add t a => (updateAt l t (DB.add_credits a), some .infoShown)
    | .rem t a => (updateAt l t (DB.remove_credits a), some .infoShown)
    | .valid t d => (updateAt l t (DB.set_validity now d), some .infoShown)
    | .validRemove t => (updateAt l t DB.remove_validity, some .infoShown)
    | .customCredit _ => (l, some .infoShown)
    | .customValid _ => (l, some .infoShown)
    | .premium => (l, some .infoShown)
    | .broadcast => (l, some .infoShown)
    | .download => (l, some .infoShown)

/-- Does a joined `users × credits` row satisfy the `WHERE` clause of
`list_premium` (bot.py): `expires_at IS NOT NULL AND expires_at > now`. -/
def premActive (now : Int) (r : Nat × CreditsRow) : Bool :=
  match r.2.expires_at with
  | some e => now < e
  | none => false

/-- Sort key of `list_premium`: the `expires_at` column (always set on
rows passing the filter; `0` is a dummy for unset). -/
def premKey (r : Nat × CreditsRow) : Int :=
  match r.2.expires_at with
  | some e => e
  | none => 0

/-- `list_premium` (bot.py): `WHERE expires_at IS NOT NULL AND
expires_at > now ORDER BY expires_at ASC LIMIT limit`.  The SQL sort is
modelled by insertion sort on the `expires_at` key, ascending. -/
def list_premium (now : Int) (limit : Nat) (rows : List (Nat × CreditsRow)) :
    List (Nat × CreditsRow) :=
  (((rows.filter (premActive now)).insertionSort
      (fun a b => premKey a ≤ premKey b))).take limit

namespace DB

/-- The `WHERE` clause of `DB.list_premium` (db.py):
`validity_expire IS NOT NULL AND validity_expire > now`. -/
def premActive (now : Int) (r : Nat × Wallet) : Bool :=
  match r.2.validity_expire with
  | some e => now < e
  | none => false

/-- Sort key of `DB.list_premium`: the `validity_expire` column. -/
def premKey (r : Nat × Wallet) : Int :=
  match r.2.validity_expire with
  | some e => e
  | none => 0

/-- `DB.list_premium` (db.py): same filter as the bot variant but
`ORDER BY validity_expire DESC LIMIT limit` — descending. -/
def list_premium (now : Int) (limit : Nat) (rows : List (Nat × Wallet)) :
    List (Nat × Wallet) :=
  (((rows.filter (DB.premActive now)).insertionSort
      (fun a b => DB.premKey b ≤ DB.premKey a))).take limit

end DB

instance : IsTotal (Nat × CreditsRow) (fun a b => premKey a ≤ premKey b) :=
  ⟨fun a b => le_total (premKey a) (premKey b)⟩

instance : IsTrans (Nat × CreditsRow) (fun a b => premKey a ≤ premKey b) :=
  ⟨fun _ _ _ hab hbc => le_trans hab hbc⟩

instance : IsTotal (Nat × Wallet) (fun a b => DB.premKey b ≤ DB.premKey a) :=
  ⟨fun a b => le_total (DB.premKey b) (DB.premKey a)⟩

instance : IsTrans (Nat × Wallet) (fun a b => DB.premKey b ≤ DB.premKey a) :=
  ⟨fun _ _ _ hab hbc => le_trans hbc hab⟩

/-!
Theorems.  Helper lemmas come first; each claim then gets one theorem
(with a witness or counterexample where required).
-/

/-- The lazy-expiry cleanup never makes a nonnegative balance negative. -/
theorem cleanup_balance_nonneg (now : Int) (w : CreditsRow) (h : 0 ≤ w.balance) :
    0 ≤ (cleanup_if_expired now w).balance := by
  unfold cleanup_if_expired
  rcases hx : w.expires_at with _ | e
  · exact h
  · dsimp only
    split_ifs <;> simp [h]

/-- One `bot.py` ledger mutation with a nonnegative credit amount
preserves nonnegativity of the balance. -/
theorem applyBot_balance_nonneg (op : LedgerMutOp) (w : CreditsRow)
    (h : 0 ≤ w.balance) (hc : creditNonneg op) : 0 ≤ (applyBot op w).balance := by
  cases op with
  | credit a =>
      have ha : 0 ≤ a := hc
      simpa [applyBot, db_add_credits] using add_nonneg h ha
  | debit a =>
      simp [applyBot, db_remove_credits]
  | reserve t c =>
      have h1 := cleanup_balance_nonneg t w h
      simp only [applyBot, db_deduct_video_credit]
      split_ifs with hlt
      · exact h1
      · simpa using by omega


/-- One `db.py` ledger mutation with a nonnegative credit amount
preserves nonnegativity of the credits column. -/
theorem applyDB_credits_nonneg (op : LedgerMutOp) (v : Wallet)
    (h : 0 ≤ v.credits) (hc : creditNonneg op) : 0 ≤ (applyDB op v).credits := by
  cases op with
  | credit a =>
      have ha : 0 ≤ a := hc
      simpa [applyDB, DB.add_credits] using add_nonneg h ha
  | debit a =>
      simp [applyDB, DB.remove_credits]
  | reserve t c =>
      simp only [applyDB, DB.deduct_for_video]
      split_ifs with hlt
      · exact h
      · simpa using by omega

/-- C1: for every account and every sequence of the balance-mutating
operations credit (`db_add_credits` / `DB.add_credits`, with the spec's
nonnegative amounts), capped debit (`db_remove_credits` /
`DB.remove_credits`) and reservation debit (`db_deduct_video_credit` /
`DB.deduct_for_video`), a balance that starts nonnegative stays
nonnegative, in both the `bot.py` and the `db.py` variant. -/
theorem C1_balance_never_negative (ops : List LedgerMutOp)
    (w : CreditsRow) (v : Wallet)
    (hw : 0 ≤ w.balance) (hv : 0 ≤ v.credits)
    (hc : ∀ op ∈ ops, creditNonneg op) :
    0 ≤ (runBot ops w).balance ∧ 0 ≤ (runDB ops v).credits := by
  induction ops generalizing w v with
  | nil => exact ⟨hw, hv⟩
  | cons op rest ih =>
      have hop : creditNonneg op := hc op (List.mem_cons_self _ _)
      have hrest : ∀ o ∈ rest, creditNonneg o := fun o ho =>
        hc o (List.mem_cons_of_mem _ ho)
      exact ih (applyBot op w) (applyDB op v)
        (applyBot_balance_nonneg op w hw hop)
        (applyDB_credits_nonneg op v hv hop) hrest

/-- Witness for C1 at a concrete mixed sequence of operations. -/
theorem C1_balance_never_negative_witness :
    0 ≤ (runBot [.credit 5, .debit 3, .reserve 7 1, .debit 100] ⟨0, none, none⟩).balance ∧
    0 ≤ (runDB [.credit 5, .debit 3, .reserve 7 1, .debit 100] ⟨0, none, none, false, 0⟩).credits :=
  C1_balance_never_negative _ ⟨0, none, none⟩ ⟨0, none, none, false, 0⟩
    (by decide) (by decide) (by decide)

/-- C2 counterexample: an account whose expiry (10) has passed at
`now = 20` is hit next by a credit, `db_add_credits 3` — which performs no
lazy-expiry check: the operation observes and leaves balance `8`, not `0`,
and `expires_at` still set.  This refutes the claim that the very next
operation, whichever it is, observes and leaves balance 0 with both
validity fields unset. -/
theorem C2_counterexample :
    (10 : Int) ≤ 20 ∧
    db_add_credits 3 ⟨5, some 0, some 10⟩ =
      (⟨8, some 0, some 10⟩ : CreditsRow) := by
  decide

/-- C2 as amended: only the operations that call `cleanup_if_expired` —
the balance read `db_get_credit` and the reservation debit
`db_deduct_video_credit` — observe and leave balance 0 with both validity
fields unset on an account whose expiry has passed; credits, capped
debits and validity changes do not run the check (and the `db.py` variant
never expires anything). -/
theorem C2_lazy_expiry_amended (now e cost : Int) (w : CreditsRow)
    (hexp : w.expires_at = some e) (hpast : e ≤ now) (hcost : 0 < cost) :
    db_get_credit now w = ((0, none, none), ⟨0, none, none⟩) ∧
    db_deduct_video_credit now cost w = (false, ⟨0, none, none⟩) := by
  have hc : cleanup_if_expired now w = ⟨0, none, none⟩ := by
    unfold cleanup_if_expired
    rw [hexp]
    simp [hpast]
  refine ⟨?_, ?_⟩
  · simp [db_get_credit, hc]
  · simp [db_deduct_video_credit, hc, hcost]

/-- Witness for the amended C2 at a concrete expired account. -/
theorem C2_lazy_expiry_amended_witness :
    db_get_credit 20 ⟨5, some 0, some 10⟩ = ((0, none, none), ⟨0, none, none⟩) ∧
    db_deduct_video_credit 20 1 ⟨5, some 0, some 10⟩ = (false, ⟨0, none, none⟩) :=
  C2_lazy_expiry_amended 20 10 1 ⟨5, some 0, some 10⟩ (by decide) (by decide) (by decide)

/-- C3: the reservation debit.  `DB.deduct_for_video` subtracts exactly
`cost` and returns success when the balance covers it, and otherwise
returns failure leaving the row (all fields) unchanged;
`db_deduct_video_credit` does the same relative to the state left by its
initial lazy-expiry check. -/
theorem C3_tryReserve (now cost : Int) (w : CreditsRow) (v : Wallet) :
    (cost ≤ v.credits →
      DB.deduct_for_video cost v = (true, { v with credits := v.credits - cost })) ∧
    (v.credits < cost → DB.deduct_for_video cost v = (false, v)) ∧
    (cost ≤ (cleanup_if_expired now w).balance →
      db_deduct_video_credit now cost w =
        (true, { cleanup_if_expired now w with
                   balance := (cleanup_if_expired now w).balance - cost })) ∧
    ((cleanup_if_expired now w).balance < cost →
      db_deduct_video_credit now cost w = (false, cleanup_if_expired now w)) := by
  refine ⟨?_, ?_, ?_, ?_⟩ <;> intro h
  · simp [DB.deduct_for_video, not_lt.mpr h]
  · simp [DB.deduct_for_video, h]
  · simp [db_deduct_video_credit, not_lt.mpr h]
  · simp [db_deduct_video_credit, h]

/-- Witness for C3: a covered reservation subtracts exactly the cost, an
uncovered one changes nothing. -/
theorem C3_tryReserve_witness :
    DB.deduct_for_video 1 ⟨2, none, none, false, 0⟩ = (true, ⟨1, none, none, false, 0⟩) ∧
    db_deduct_video_credit 0 5 ⟨2, none, none⟩ = (false, ⟨2, none, none⟩) := by
  constructor
  · have h := (C3_tryReserve 0 1 ⟨2, none, none⟩ ⟨2, none, none, false, 0⟩).1 (by decide)
    simpa using h
  · have h := (C3_tryReserve 0 5 ⟨2, none, none⟩ ⟨2, none, none, false, 0⟩).2.2.2 (by decide)
    simpa [cleanup_if_expired] using h

/-- C4 counterexample: a conversion attempt whose reservation succeeded
(balance 1, cost 1) and whose transcoder step is then cancelled
(`asyncio.CancelledError` is a `BaseException`, which the `except
Exception` clause of `handle_video` does not catch): the request
terminates with balance 0, not the pre-reservation balance 1, and no
refund appears in the trace.  This refutes the claim that an
abandoned/cancelled step is refunded before the request terminates. -/
theorem C4_counterexample :
    (handle_video 0 1 true .cancelled ⟨1, none, none⟩ ⟨0, 0⟩).trace =
      [.reserveOp 1 true] ∧
    (handle_video 0 1 true .cancelled ⟨1, none, none⟩ ⟨0, 0⟩).row.balance = 0 ∧
    (1 : Int) ≠ 0 := by
  decide

/-- C4 as amended: after a successful reservation, every failure raised
as an ordinary `Exception` — unresolvable input media, download failure,
transcoder failure, output-delivery failure — and the missing-file-id
branch credit exactly the reserved cost back before the request
terminates, restoring the pre-reservation (post-lazy-expiry) row and
leaving the stats untouched; a cancellation (or an exception thrown by
`send_chat_action`, before the `try` block) terminates without the
refund. -/
theorem C4_refund_amended (now cost : Int) (stage : VideoStage)
    (w : CreditsRow) (st : Stats)
    (hres : (db_deduct_video_credit now cost w).1 = true)
    (hfail : stage = .resolveExn ∨ stage = .transcodeExn ∨ stage = .deliverExn) :
    (handle_video now cost true stage w st).row = cleanup_if_expired now w ∧
    (handle_video now cost true stage w st).stats = st ∧
    (handle_video now cost true stage w st).trace =
      [.reserveOp cost true, .creditOp cost] ∧
    (handle_video now cost false stage w st).row = cleanup_if_expired now w ∧
    (handle_video now cost true .cancelled w st).row.balance =
      (cleanup_if_expired now w).balance - cost := by
  have h1 : ¬ ((cleanup_if_expired now w).balance < cost) := by
    intro hlt
    simp [db_deduct_video_credit, hlt] at hres
  rcases hfail with h | h | h <;> subst h <;>
    refine ⟨?_, ?_, ?_, ?_, ?_⟩ <;>
    simp [handle_video, db_deduct_video_credit, db_add_credits, h1, sub_add_cancel]

/-- Witness for the amended C4: transcoder failure on a funded account
refunds the unit cost. -/
theorem C4_refund_amended_witness :
    (handle_video 0 1 true .transcodeExn ⟨2, none, none⟩ ⟨0, 0⟩).row =
      cleanup_if_expired 0 ⟨2, none, none⟩ ∧
    (handle_video 0 1 true .transcodeExn ⟨2, none, none⟩ ⟨0, 0⟩).stats = ⟨0, 0⟩ ∧
    (handle_video 0 1 true .transcodeExn ⟨2, none, none⟩ ⟨0, 0⟩).trace =
      [.reserveOp 1 true, .creditOp 1] ∧
    (handle_video 0 1 false .transcodeExn ⟨2, none, none⟩ ⟨0, 0⟩).row =
      cleanup_if_expired 0 ⟨2, none, none⟩ ∧
    (handle_video 0 1 true .cancelled ⟨2, none, none⟩ ⟨0, 0⟩).row.balance =
      (cleanup_if_expired 0 ⟨2, none, none⟩).balance - 1 :=
  C4_refund_amended 0 1 .transcodeExn ⟨2, none, none⟩ ⟨0, 0⟩ (by decide)
    (Or.inr (Or.inl rfl))

/-- Closed form of `run_reserves`: from a balance of `k` with no validity
window, `n` unit reservations succeed `min k n` times and leave balance
`k - min k n`. -/
theorem run_reserves_spec (now : Int) (vf : Option Int) :
    ∀ n k : Nat,
      run_reserves now n ⟨(k : Int), vf, none⟩ =
        (min k n, n - min k n, ⟨(k : Int) - (min k n : Nat), vf, none⟩) := by
  intro n
  induction n with
  | zero => intro k; simp [run_reserves]
  | succ n ih =>
      intro k
      cases k with
      | zero =>
          have h0 : db_deduct_video_credit now 1 ⟨(0 : Int), vf, none⟩ =
              (false, ⟨(0 : Int), vf, none⟩) := by
            simp [db_deduct_video_credit, cleanup_if_expired]
          have e0 := ih 0
          simp only [Nat.cast_zero, Nat.zero_min, Nat.sub_zero] at e0
          simp [run_reserves, h0, e0]
      | succ k =>
          have h1 : db_deduct_video_credit now 1 ⟨((k + 1 : Nat) : Int), vf, none⟩ =
              (true, ⟨(k : Int), vf, none⟩) := by
            unfold db_deduct_video_credit cleanup_if_expired
            dsimp only
            rw [if_neg (by push_cast; omega)]
            simp
          simp only [run_reserves]
          rw [h1]
          dsimp only
          rw [ih k]
          simp only [Nat.succ_min_succ, Nat.succ_sub_succ, if_true,
            Nat.succ_eq_add_one, Prod.mk.injEq, CreditsRow.mk.injEq]
          simp only [true_and, and_true]
          push_cast
          ring

/-- Executing the two split statements of one `DB.deduct_for_video` call
back to back, with no interleaved call, recomposes exactly the atomic
`DB.deduct_for_video` on the credits column. -/
theorem dfv_split_recomposes (cost : Int) (w : Wallet) :
    dfvFinish cost (dfvRead w.credits) w.credits =
      ((DB.deduct_for_video cost w).1, (DB.deduct_for_video cost w).2.credits) := by
  unfold dfvFinish dfvRead DB.deduct_for_video
  split_ifs <;> rfl

/-- C5 counterexample: the claim also cites db.py's `deduct_for_video`,
which takes no lock across its `SELECT credits` and its relative
`UPDATE credits = credits - cost` (each call even opens its own
connection).  Under the schedule in which both SELECTs of two concurrent
unit reservations run before either UPDATE, both calls read balance 1,
both pass the `c < cost` check and both succeed, and the two relative
updates drive the final balance to `-1` — refuting, for the db.py
variant, that two concurrent reservations never both succeed on one
remaining credit and that the final balance is 0. -/
theorem C5_counterexample :
    deduct_for_video_race 1 1 = ((true, true), -1) := by decide

/-- C5 as amended: for bot.py's `db_deduct_video_credit`, whose whole
read-modify-write holds the single `db_lock` asyncio lock — so that any
concurrent schedule of N unit reservations is a sequential composition of
N atomic calls, which `run_reserves` is — N concurrent `tryReserve(u, 1)`
calls against an account holding exactly `k < N` credits succeed exactly
`k` times and fail exactly `N - k` times with final balance 0 (the
`N = 2, k = 1` instance is never-both-succeed); db.py's unlocked
`deduct_for_video` instead admits the interleaving in which two unit
reservations on one remaining credit both succeed, leaving balance -1. -/
theorem C5_reserves_amended (N k : Nat) (now : Int) (vf : Option Int)
    (hk : k < N) :
    run_reserves now N ⟨(k : Int), vf, none⟩ = (k, N - k, ⟨0, vf, none⟩) ∧
    deduct_for_video_race 1 1 = ((true, true), -1) := by
  refine ⟨?_, by decide⟩
  rw [run_reserves_spec now vf N k]
  have hmin : min k N = k := Nat.min_eq_left hk.le
  simp [hmin]

/-- Witness for the amended C5: three unit reservations against a balance
of two succeed twice, fail once and drain the balance. -/
theorem C5_reserves_amended_witness :
    run_reserves 0 3 ⟨((2 : Nat) : Int), none, none⟩ = (2, 1, ⟨0, none, none⟩) ∧
    deduct_for_video_race 1 1 = ((true, true), -1) :=
  C5_reserves_amended 3 2 0 none (by decide)

/-- C6: the free-credit claim.  With `freeClaimed` already set, `free_cmd`
returns already-claimed and changes nothing, whatever the membership
oracle would answer; a non-member or unreachable oracle yields
not-subscribed with no state change; otherwise it credits `FREE_CREDITS`
and sets the flag, so a second claim after a successful grant never
changes the balance. -/
theorem C6_free_claim (fc : Int) (oracle oracle2 : OracleAnswer)
    (w : CreditsRow) :
    free_cmd fc oracle w true = (.alreadyClaimed, w, true) ∧
    (is_user_subscribed oracle = false →
      free_cmd fc oracle w false = (.notSubscribed, w, false)) ∧
    (is_user_subscribed oracle = true →
      free_cmd fc oracle w false = (.granted, db_add_credits fc w, true)) ∧
    ((free_cmd fc oracle w false).1 = .granted →
      free_cmd fc oracle2 (free_cmd fc oracle w false).2.1
          (free_cmd fc oracle w false).2.2 =
        (.alreadyClaimed, (free_cmd fc oracle w false).2.1, true)) := by
  refine ⟨by simp [free_cmd], ?_, ?_, ?_⟩
  · intro h
    simp [free_cmd, h]
  · intro h
    simp [free_cmd, h]
  · intro h
    by_cases hsub : is_user_subscribed oracle
    · simp [free_cmd, hsub]
    · simp [free_cmd, hsub] at h

/-- Witness for C6 at a subscribed member and a fresh account. -/
theorem C6_free_claim_witness :
    free_cmd 2 (.status "member") ⟨0, none, none⟩ false =
      (.granted, db_add_credits 2 ⟨0, none, none⟩, true) :=
  (C6_free_claim 2 (.status "member") .error ⟨0, none, none⟩).2.2.1 (by decide)

/-- C7: `db_set_validity` / `DB.set_validity` overwrite the validity
window: after setting `d1` days at `t1` and then `d2` days at `t2`, the
window is exactly `[t2, t2 + d2*86400)` with the balance untouched —
replace semantics, never an extension. -/
theorem C7_set_validity_replaces (t1 t2 d1 d2 : Int) (w : CreditsRow)
    (v : Wallet) (_hd1 : 0 < d1) (_hd2 : 0 < d2) :
    db_set_validity t2 d2 (db_set_validity t1 d1 w) =
      { w with valid_from := some t2, expires_at := some (t2 + d2 * 86400) } ∧
    DB.set_validity t2 d2 (DB.set_validity t1 d1 v) =
      { v with validity_start := some t2, validity_expire := some (t2 + d2 * 86400) } :=
  ⟨rfl, rfl⟩

/-- Witness for C7: 30 days at time 0, then 7 days at time 100. -/
theorem C7_set_validity_replaces_witness :
    db_set_validity 100 7 (db_set_validity 0 30 ⟨5, none, none⟩) =
      (⟨5, some 100, some (100 + 7 * 86400)⟩ : CreditsRow) ∧
    DB.set_validity 100 7 (DB.set_validity 0 30 ⟨5, none, none, false, 0⟩) =
      (⟨5, some 100, some (100 + 7 * 86400), false, 0⟩ : Wallet) :=
  C7_set_validity_replaces 0 100 30 7 ⟨5, none, none⟩ ⟨5, none, none, false, 0⟩
    (by decide) (by decide)

/-- C9 counterexample: a non-admin pressing the `+5 credits` admin
callback button is not surfaced a permission error — `admin_cb` answers
the callback and returns with no message at all (and no mutation).  This
refutes the claim that every non-admin invocation is surfaced as an
explicit permission error rather than silently ignored. -/
theorem C9_counterexample :
    (admin_cb 0 false (.add 7 5) (fun _ => ⟨0, none, none⟩)).2 = none ∧
    none ≠ some AdminReply.adminOnly := by
  exact ⟨rfl, by decide⟩

/-- C9 as amended: every admin entry point rejects a non-admin caller
before any ledger mutation, but only the `/admin` command and the
`ADMIN PANEL` menu button reply with the explicit `Admin only.` error;
the callback handlers (`admin_cb` of bot.py, `cb` of admin_panel.py) and
the wizard step handler reject silently, sending no message. -/
theorem C9_admin_auth_amended (now : Int) (act : AdminAction)
    (l : Nat → CreditsRow) (lw : Nat → Wallet) (step : Option AdminStep)
    (u : Nat) :
    admin_cmd false = .adminOnly ∧
    menu_admin_panel false = .adminOnly ∧
    (admin_cb now false act l).1 u = l u ∧
    (admin_cb now false act l).2 = none ∧
    (admin_step_handler now false step l).1 u = l u ∧
    (admin_step_handler now false step l).2 = none ∧
    (admin_panel_cb now false act lw).1 u = lw u ∧
    (admin_panel_cb now false act lw).2 = none := by
  cases step <;>
    exact ⟨rfl, rfl, rfl, rfl, rfl, rfl, rfl, rfl⟩

/-- C10: voice conversion is never credit-gated.  For every request and
every account state, `handle_voice` leaves the credits row (balance and
validity fields) exactly as it was, never touches `videos_made`,
increments `voices_made` exactly on success, and its ledger trace never
contains a reservation, credit or debit. -/
theorem C10_voice_not_credit_gated (hasAudio : Bool) (stage : VoiceStage)
    (w : CreditsRow) (st : Stats) :
    (handle_voice hasAudio stage w st).row = w ∧
    (handle_voice hasAudio stage w st).stats.videos_made = st.videos_made ∧
    (handle_voice hasAudio stage w st).stats.voices_made =
      st.voices_made +
        (if hasAudio = true ∧ stage = .completed then 1 else 0) ∧
    (handle_voice hasAudio stage w st).trace =
      (if hasAudio = true ∧ stage = .completed then [.incVoice] else []) := by
  cases hasAudio <;> cases stage <;> simp [handle_voice]

/-- C8 counterexample: two active premium accounts, expiring at 100 and
200, queried at time 0.  `DB.list_premium` (db.py) sorts `ORDER BY
validity_expire DESC`, so the account expiring at 200 comes first and the
soonest-expiring one (100) last — refuting soonest-expiring-first order
for the cited db.py `list_premium`. -/
theorem C8_counterexample :
    DB.list_premium 0 50
        [(1, ⟨0, some 0, some 100, false, 0⟩), (2, ⟨0, some 0, some 200, false, 0⟩)] =
      [(2, ⟨0, some 0, some 200, false, 0⟩), (1, ⟨0, some 0, some 100, false, 0⟩)] ∧
    (100 : Int) < 200 := by
  decide

/-- C8 as amended: both variants return exactly the accounts whose expiry
is set and strictly in the future (when they fit into the limit), but
only `list_premium` of bot.py orders them soonest-expiring first;
`DB.list_premium` of db.py orders them latest-expiring first. -/
theorem C8_list_premium_amended (now : Int) (limit : Nat)
    (rows : List (Nat × CreditsRow)) (wrows : List (Nat × Wallet)) :
    (∀ a ∈ list_premium now limit rows, premActive now a = true) ∧
    (list_premium now limit rows).Sorted (fun a b => premKey a ≤ premKey b) ∧
    ((rows.filter (premActive now)).length ≤ limit →
      (list_premium now limit rows).Perm (rows.filter (premActive now))) ∧
    (∀ a ∈ DB.list_premium now limit wrows, DB.premActive now a = true) ∧
    (DB.list_premium now limit wrows).Sorted (fun a b => DB.premKey b ≤ DB.premKey a) ∧
    ((wrows.filter (DB.premActive now)).length ≤ limit →
      (DB.list_premium now limit wrows).Perm (wrows.filter (DB.premActive now))) := by
  refine ⟨?_, ?_, ?_, ?_, ?_, ?_⟩
  · intro a ha
    have h1 : a ∈ (rows.filter (premActive now)).insertionSort
        (fun a b => premKey a ≤ premKey b) := List.mem_of_mem_take ha
    have h2 : a ∈ rows.filter (premActive now) :=
      (List.perm_insertionSort _ _).mem_iff.mp h1
    exact (List.mem_filter.mp h2).2
  · exact List.Pairwise.sublist (List.take_sublist _ _)
      (List.sorted_insertionSort _ _)
  · intro hlen
    have hlen2 : ((rows.filter (premActive now)).insertionSort
        (fun a b => premKey a ≤ premKey b)).length ≤ limit := by
      rwa [(List.perm_insertionSort _ _).length_eq]
    unfold list_premium
    rw [List.take_of_length_le hlen2]
    exact List.perm_insertionSort _ _
  · intro a ha
    have h1 : a ∈ (wrows.filter (DB.premActive now)).insertionSort
        (fun a b => DB.premKey b ≤ DB.premKey a) := List.mem_of_mem_take ha
    have h2 : a ∈ wrows.filter (DB.premActive now) :=
      (List.perm_insertionSort _ _).mem_iff.mp h1
    exact (List.mem_filter.mp h2).2
  · exact List.Pairwise.sublist (List.take_sublist _ _)
      (List.sorted_insertionSort _ _)
  · intro hlen
    have hlen2 : ((wrows.filter (DB.premActive now)).insertionSort
        (fun a b => DB.premKey b ≤ DB.premKey a)).length ≤ limit := by
      rwa [(List.perm_insertionSort _ _).length_eq]
    unfold DB.list_premium
    rw [List.take_of_length_le hlen2]
    exact List.perm_insertionSort _ _

/-- Witness for the amended C8 at two concrete account tables. -/
theorem C8_list_premium_amended_witness :
    (list_premium 0 50
        [(1, ⟨0, some 0, some 200⟩), (2, ⟨0, some 0, some 100⟩), (3, ⟨0, none, none⟩)]).Perm
      ([(1, ⟨0, some 0, some 200⟩), (2, ⟨0, some 0, some 100⟩),
        (3, ⟨0, none, none⟩)].filter (premActive 0)) ∧
    (DB.list_premium 0 50
        [(1, ⟨0, some 0, some 100, false, 0⟩), (2, ⟨0, some 0, some 200, false, 0⟩)]).Perm
      ([(1, ⟨0, some 0, some 100, false, 0⟩),
        (2, ⟨0, some 0, some 200, false, 0⟩)].filter (DB.premActive 0)) :=
  ⟨(C8_list_premium_amended 0 50
      [(1, ⟨0, some 0, some 200⟩), (2, ⟨0, some 0, some 100⟩), (3, ⟨0, none, none⟩)]
      []).2.2.1 (by decide),
   (C8_list_premium_amended 0 50 []
      [(1, ⟨0, some 0, some 100, false, 0⟩), (2, ⟨0, some 0, some 200, false, 0⟩)]).2.2.2.2.2
     (by decide)⟩

end CircleMaker
